import Mathlib

/-!
# Verification of the kne `deploy` package

A shallow embedding of the component-deployment and readiness-verification
engine of the kne repository: the cluster provisioner (`KindSpec`), the
load-balancer (`MetalLBSpec`) with its IP-pool allocator, the interface-mesh
daemon (`MeshnetSpec`), the network-element operator (`IxiaTGSpec`), and the
shared watch-driven readiness primitive.

The repository sources available here contain the package's test file
(`deploy_test.go`) but not `deploy.go` itself, so the operations are modelled
from the specification, pinned down wherever the test file constrains the
behaviour (scripted executor sequences, expected error substrings, the
expected rendered configuration, watch-event scripts).
-/

namespace KneDeploy

/-! ## Strings and decimal / CIDR parsing -/

/-- Decimal digit accumulator: consumes the remaining characters, failing on a
non-digit. -/
def parseDecimalAux : List Char → Nat → Option Nat
  | [], acc => some acc
  | c :: cs, acc =>
    if c.isDigit then parseDecimalAux cs (acc * 10 + (c.toNat - 48)) else none

/-- Parse a non-empty all-digit character list as a decimal `Nat`. -/
def parseDecimal (cs : List Char) : Option Nat :=
  match cs with
  | [] => none
  | _ => parseDecimalAux cs 0

/-- Split a character list on a separator character (the separator is
dropped; empty groups are kept, as in Go's `strings.Split`). -/
def splitOnChar (sep : Char) : List Char → List (List Char)
  | [] => [[]]
  | c :: cs =>
    let r := splitOnChar sep cs
    if c == sep then [] :: r
    else
      match r with
      | [] => [[c]]
      | g :: gs => (c :: g) :: gs

/-- Modelled from the spec: the IPv4-CIDR recogniser used by the load-balancer
(`net.ParseCIDR` restricted to dotted-quad addresses, as used by the missing
`deploy.go` to pick IPv4 IPAM entries and reject IPv6 ones). Returns the four
octets and the prefix length. An IPv6 literal such as `127::0/64` fails (its
address part does not split into four decimal octets). -/
def parseIPv4CIDR (s : String) : Option (Nat × Nat × Nat × Nat × Nat) :=
  match splitOnChar '/' s.data with
  | [ipPart, maskPart] =>
    match splitOnChar '.' ipPart with
    | [q1, q2, q3, q4] =>
      match parseDecimal q1, parseDecimal q2, parseDecimal q3,
            parseDecimal q4, parseDecimal maskPart with
      | some a, some b, some c, some d, some p =>
        if a < 256 && b < 256 && c < 256 && d < 256 && p ≤ 32 then
          some (a, b, c, d, p)
        else none
      | _, _, _, _, _ => none
    | _ => none
  | _ => none

/-- Render a 32-bit address value as a dotted quad. -/
def ip32Repr (n : Nat) : String :=
  Nat.repr (n / 16777216 % 256) ++ "." ++ Nat.repr (n / 65536 % 256) ++ "." ++
    Nat.repr (n / 256 % 256) ++ "." ++ Nat.repr (n % 256)

/-! ## The IP pool allocator and its rendered configuration -/

/-- One docker IPAM entry: an address pool / subnet in CIDR notation. -/
structure IPAMConfig where
  subnet : String
deriving DecidableEq

/-- A discovered container network: its name plus its IPAM entries (possibly
mixing IPv4 and IPv6 subnets). -/
structure NetworkResource where
  name : String
  ipam : List IPAMConfig
deriving DecidableEq

/-- A derived layer-2 address pool of the load-balancer configuration. -/
structure AddressPool where
  name : String
  protocol : String
  addresses : List String
deriving DecidableEq

/-- Modelled from the spec: the missing `makePool` of `deploy.go`. Given a
subnet in CIDR notation and the configured IP count, reserve the usable range
starting at host offset 50 of the subnet base; the test file pins the upper
end at host offset `50 + count` (subnet `172.18.0.0/16` with count 20 must
yield `172.18.0.50 - 172.18.0.70`). The pool is the single layer-2 block
named `default`. -/
def makePool (subnet : String) (count : Nat) : Option AddressPool :=
  match parseIPv4CIDR subnet with
  | none => none
  | some (a, b, c, d, p) =>
    let ip32 := ((a * 256 + b) * 256 + c) * 256 + d
    let base := ip32 - ip32 % 2 ^ (32 - p)
    let lo := (base + 50) % 2 ^ 32
    let hi := (base + 50 + count) % 2 ^ 32
    some { name := "default", protocol := "layer2",
           addresses := [ip32Repr lo ++ " - " ++ ip32Repr hi] }

/-- Modelled from the spec: the YAML rendering of one pool inside the
load-balancer configuration document, with the exact indentation the test
file expects. -/
def renderPool (p : AddressPool) : String :=
  "    - name: " ++ p.name ++ "\n      protocol: " ++ p.protocol ++
    "\n      addresses:\n" ++
    String.join (p.addresses.map (fun a => "        - " ++ a ++ "\n"))

/-- Modelled from the spec: the full configuration document, a YAML mapping
with top-level key `address-pools` holding the rendered pools. -/
def renderMetalLBConfig (pools : List AddressPool) : String :=
  "address-pools:\n" ++ String.join (pools.map renderPool)

/-- Modelled from the spec: take the first IPAM entry carrying an IPv4
subnet, ignoring IPv6 entries. -/
def firstIPv4Subnet (cfgs : List IPAMConfig) : Option String :=
  match cfgs.find? (fun c => (parseIPv4CIDR c.subnet).isSome) with
  | some c => some c.subnet
  | none => none

/-- Modelled from the spec: the network-selection plus range-derivation
pipeline of the load-balancer: pick the network matching the cluster's
identity (the `kind` docker network), take its first IPv4 IPAM subnet, derive
the pool, render the configuration document. -/
def deriveMetalLBConfig (nets : List NetworkResource) (count : Nat) :
    Option String :=
  match nets.find? (fun n => n.name == "kind") with
  | none => none
  | some net =>
    match firstIPv4Subnet net.ipam with
    | none => none
    | some s =>
      match makePool s count with
      | none => none
      | some pool => some (renderMetalLBConfig [pool])

/-- The network list scripted by the test file: the `kind` network with one
IPv4 and one IPv6 IPAM entry, and an unrelated `docker` network. -/
def testNetworkList : List NetworkResource :=
  [{ name := "kind", ipam := [⟨"172.18.0.0/16"⟩, ⟨"127::0/64"⟩] },
   { name := "docker", ipam := [⟨"1.1.1.1/16"⟩] }]

/-! ## The watch-driven readiness primitive -/

/-- The tagged union of watch event kinds. -/
inductive EventType
  | added
  | modified
  | deleted
  | error
deriving DecidableEq

/-- A deployment's status snapshot, mirroring `appsv1.DeploymentStatus`. -/
structure DeploymentStatus where
  availableReplicas : Nat
  readyReplicas : Nat
  replicas : Nat
  unavailableReplicas : Nat
  updatedReplicas : Nat
deriving DecidableEq, Inhabited

/-- A deployment snapshot: the declared desired replica count (absent when
the platform did not set one) and the status. -/
structure DeploymentObj where
  specReplicas : Option Nat
  status : DeploymentStatus
deriving DecidableEq, Inhabited

/-- A daemon set's status snapshot, mirroring `appsv1.DaemonSetStatus`. -/
structure DaemonSetObj where
  numberReady : Nat
  desiredNumberScheduled : Nat
  numberUnavailable : Nat
deriving DecidableEq, Inhabited

/-- Modelled from the spec: the readiness predicate of Deployment-backed
components — no unavailable replicas, and the ready replicas match the
declared desired count, defaulting to 1 when the deployment sets none. -/
def deploymentReady (d : DeploymentObj) : Bool :=
  d.status.unavailableReplicas == 0 &&
    d.status.readyReplicas == d.specReplicas.getD 1

/-- Modelled from the spec: the readiness predicate of DaemonSet-backed
components. -/
def daemonSetReady (d : DaemonSetObj) : Bool :=
  d.numberUnavailable == 0 && d.numberReady == d.desiredNumberScheduled

/-- Whether a watch event is an Added/Modified event whose object satisfies
the readiness predicate (the only kind of event that resolves a watch). -/
def readyEvent (pred : α → Bool) (ev : EventType × α) : Bool :=
  (ev.1 == EventType.added || ev.1 == EventType.modified) && pred ev.2

/-- The consume loop of the readiness watcher, indexed by the position of the
next event: Added/Modified events are tested against the predicate; Deleted
events are skipped; an Error event aborts; stream exhaustion (channel
closure) is a watch failure. Returns the index of the resolving event. -/
def waitReadyGo (pred : α → Bool) : Nat → List (EventType × α) → Except String Nat
  | _, [] => Except.error "watch channel closed before ready"
  | i, (t, o) :: rest =>
    match t with
    | EventType.error => Except.error "watch error"
    | EventType.deleted => waitReadyGo pred (i + 1) rest
    | _ => if pred o then Except.ok i else waitReadyGo pred (i + 1) rest

/-- Modelled from the spec: the missing readiness watcher of `deploy.go`
(`WaitReady`). A caller whose cancellation context has already fired gets a
cancellation error before any event is consumed; otherwise the event stream
is consumed until the first event satisfying the predicate. -/
def waitReady (canceled : Bool) (pred : α → Bool)
    (events : List (EventType × α)) : Except String Nat :=
  if canceled then Except.error "context canceled"
  else waitReadyGo pred 0 events

/-- Modelled from the spec: `Healthy` of a Deployment-backed component —
block on the readiness watcher with the deployment predicate. -/
def deploymentHealthy (canceled : Bool)
    (events : List (EventType × DeploymentObj)) : Except String Nat :=
  waitReady canceled deploymentReady events

/-- Modelled from the spec: `Healthy` of a DaemonSet-backed component. -/
def daemonSetHealthy (canceled : Bool)
    (events : List (EventType × DaemonSetObj)) : Except String Nat :=
  waitReady canceled daemonSetReady events

/-- `MetalLBSpec.Healthy` watches the controller's deployment. -/
def metalLBHealthy (canceled : Bool)
    (events : List (EventType × DeploymentObj)) : Except String Nat :=
  deploymentHealthy canceled events

/-- `MeshnetSpec.Healthy` watches the mesh daemon's daemon set. -/
def meshnetHealthy (canceled : Bool)
    (events : List (EventType × DaemonSetObj)) : Except String Nat :=
  daemonSetHealthy canceled events

/-- `IxiaTGSpec.Healthy` watches the operator's deployment. -/
def ixiaTGHealthy (canceled : Bool)
    (events : List (EventType × DeploymentObj)) : Except String Nat :=
  deploymentHealthy canceled events

/-- `SRLinuxSpec.Healthy` watches the operator's deployment. -/
def srlinuxHealthy (canceled : Bool)
    (events : List (EventType × DeploymentObj)) : Except String Nat :=
  deploymentHealthy canceled events

/-- The deployment watch-event script of the MetalLB test: first an Added
event with one unavailable replica, then a Modified event with the
deployment fully ready. -/
def testMetalLBEvents : List (EventType × DeploymentObj) :=
  [(EventType.added, ⟨none, ⟨0, 0, 0, 1, 0⟩⟩),
   (EventType.modified, ⟨none, ⟨1, 1, 1, 0, 1⟩⟩)]

/-- The daemon-set watch-event script of the Meshnet test. -/
def testMeshnetEvents : List (EventType × DaemonSetObj) :=
  [(EventType.added, ⟨0, 1, 1⟩),
   (EventType.modified, ⟨1, 1, 0⟩)]

/-! ## The scripted process executor

The test harness replaces the process executor with a scripted sequence of
canned results (`exec.NewFakeExecer`): each external invocation consumes the
next result (`none` = success, `some msg` = that command's failure), and an
invocation beyond the script is itself an error. -/

/-- Consume one scripted executor result. -/
def takeExec : List (Option String) → Option String × List (Option String)
  | [] => (some "unexpected exec call", [])
  | r :: rest => (r, rest)

/-! ## The load-balancer spec (`MetalLBSpec.Deploy`) -/

/-- The two object-client operations of the get-or-create secret protocol. -/
inductive SecretOp
  | get
  | create
deriving DecidableEq

/-- Modelled from the spec: the get-or-create protocol for the shared
membership secret. The get is attempted first; only on a get failure is a
create attempted; when the create also fails the error surfaces as a
"secret error", distinct from the bare get failure (which alone is not an
error of the protocol). Returns the operations attempted and the outcome. -/
def getOrCreateSecret (getErr createErr : Option String) :
    List SecretOp × Option String :=
  match getErr with
  | none => ([SecretOp.get], none)
  | some _ =>
    match createErr with
    | none => ([SecretOp.get, SecretOp.create], none)
    | some e => ([SecretOp.get, SecretOp.create], some ("secret error: " ++ e))

/-- A generated-configuration write into the cluster: namespace, object
name, data key and data value. -/
structure ConfigMapWrite where
  namespaceName : String
  objectName : String
  dataKey : String
  dataValue : String
deriving DecidableEq

/-- The test seams of `MetalLBSpec.Deploy`: the configured IP count, the
scripted executor results (namespace apply, then manifest apply), the
injected secret get/create failures, and the network-introspection result. -/
structure MetalLBEnv where
  ipCount : Nat
  execResults : List (Option String)
  secretGetErr : Option String
  secretCreateErr : Option String
  netList : Except String (List NetworkResource)

/-- The observable outcome of `MetalLBSpec.Deploy`: which secret operations
ran, the configuration object written (if reached), and the error. -/
structure MetalLBResult where
  secretOps : List SecretOp
  cmWrite : Option ConfigMapWrite
  err : Option String
deriving DecidableEq

/-- The tail of `MetalLBSpec.Deploy` after the secret phase: apply the
controller manifest (executor, error surfaced verbatim); list the container
networks (failure surfaced verbatim); select the cluster's network and
first IPv4 subnet, derive the pool and write the rendered document into the
`config` object of namespace `metallb-system` under data key `config`. -/
def metalLBFinish (ops : List SecretOp) (execRest : List (Option String))
    (netList : Except String (List NetworkResource)) (count : Nat) :
    MetalLBResult :=
  let s2 := takeExec execRest
  match s2.1 with
  | some e => { secretOps := ops, cmWrite := none, err := some e }
  | none =>
    match netList with
    | Except.error e => { secretOps := ops, cmWrite := none, err := some e }
    | Except.ok nets =>
      match deriveMetalLBConfig nets count with
      | none =>
          { secretOps := ops, cmWrite := none,
            err := some "failed to find an ipv4 subnet for the kind network" }
      | some cfg =>
          { secretOps := ops,
            cmWrite := some { namespaceName := "metallb-system",
                              objectName := "config",
                              dataKey := "config",
                              dataValue := cfg },
            err := none }

/-- Modelled from the spec, pinned by the test file: `MetalLBSpec.Deploy`.
Steps, halting at the first failure: apply the namespace (executor, error
surfaced verbatim); get-or-create the membership secret; then the manifest
apply, the container-network listing (the test file requires the listing
failure `dclient error` to be returned by `Deploy`), the range derivation
and the configuration-object write of `metalLBFinish`. -/
def metalLBDeploy (env : MetalLBEnv) : MetalLBResult :=
  let s1 := takeExec env.execResults
  match s1.1 with
  | some e => { secretOps := [], cmWrite := none, err := some e }
  | none =>
    let sec := getOrCreateSecret env.secretGetErr env.secretCreateErr
    match sec.2 with
    | some e => { secretOps := sec.1, cmWrite := none, err := some e }
    | none => metalLBFinish sec.1 s1.2 env.netList env.ipCount

/-- The successful-deployment environment of the MetalLB test: IP count 20,
all executor calls succeeding, the membership secret already present, and
the scripted network list. -/
def testMetalLBEnv : MetalLBEnv :=
  { ipCount := 20
    execResults := [none, none, none]
    secretGetErr := none
    secretCreateErr := none
    netList := Except.ok testNetworkList }

/-! ## The cluster provisioner (`KindSpec.Deploy`) -/

/-- The external-process steps of the cluster provisioner's `Deploy`. -/
inductive KStep
  | createCluster
  | getToken
  | dockerLogin
  | getNodes
  | cpConfig
  | restartKubelet
  | pullImg
  | tagImg
  | loadImg
deriving DecidableEq

/-- The running state of a scripted `KindSpec.Deploy`: the remaining
executor script, the trace of steps issued so far, and the first error. -/
structure KRun where
  results : List (Option String)
  trace : List KStep
  err : Option String
deriving DecidableEq

/-- Issue one provisioner step against the scripted executor, unless an
earlier step already failed (the sequence halts at the first failure, so a
step after a failure consumes nothing and appears in no trace). A failing
command's error is wrapped with the step-identifying message. -/
def kstep (label : KStep) (wrap : String) (s : KRun) : KRun :=
  match s.err with
  | some _ => s
  | none =>
    match s.results with
    | [] => { results := [], trace := s.trace ++ [label],
              err := some (wrap ++ ": unexpected exec call") }
    | r :: rest =>
      match r with
      | none => { results := rest, trace := s.trace ++ [label], err := none }
      | some e => { results := rest, trace := s.trace ++ [label],
                    err := some (wrap ++ ": " ++ e) }

/-- Run a planned sequence of (step, wrapping message) pairs in order. -/
def runPlan (plan : List (KStep × String)) (s : KRun) : KRun :=
  match plan with
  | [] => s
  | p :: ps => runPlan ps (kstep p.1 p.2 s)

/-- Modelled from the spec, pinned by the test file's executor call counts:
the external-process plan of `KindSpec.Deploy` for a fresh cluster. Create
the cluster; when artifact registries are configured, fetch one access
token, log in to each registry with it, enumerate the cluster nodes once,
then per discovered node copy the credentials and restart the kubelet;
finally, per image mapping, pull, tag and load. (The test file's scripted
counts — 6 calls for one registry, 7 for two — pin the token fetch and node
enumeration as performed once overall, not once per registry.) -/
def kindPlan (registries nodes : List String)
    (images : List (String × String)) : List (KStep × String) :=
  [(KStep.createCluster, "failed to create cluster")] ++
  (if registries.isEmpty then [] else
    [(KStep.getToken, "failed to get access token")] ++
    registries.map (fun _ => (KStep.dockerLogin, "failed to login to docker")) ++
    [(KStep.getNodes, "failed to get nodes")] ++
    (nodes.map (fun _ =>
      [(KStep.cpConfig, "failed to cp config to node"),
       (KStep.restartKubelet, "failed to restart kubelet")])).flatten) ++
  (images.map (fun _ =>
    [(KStep.pullImg, "failed to pull"),
     (KStep.tagImg, "failed to tag"),
     (KStep.loadImg, "failed to load")])).flatten

/-- Modelled from the spec: `KindSpec.Deploy` (fresh-cluster mode). The
path lookup of the provisioning tool is checked before any other step: when
it fails, `Deploy` returns the dependency-missing error having issued no
external-process call; otherwise the planned step sequence runs against the
scripted executor, halting at the first failure. -/
def kindDeploy (lookPathOk : Bool) (registries nodes : List String)
    (images : List (String × String))
    (results : List (Option String)) : KRun :=
  if lookPathOk then
    runPlan (kindPlan registries nodes images)
      { results := results, trace := [], err := none }
  else
    { results := results, trace := [],
      err := some "install dependency \"kind\" to deploy" }

/-! ## The network-element operator (`IxiaTGSpec.Deploy`) -/

/-- The externally visible steps of `IxiaTGSpec.Deploy`. -/
inductive IxiaStep
  | applyOperator
  | applyConfigMap
deriving DecidableEq

/-- The test seams of `IxiaTGSpec.Deploy`: whether an in-memory ConfigMap
was supplied, whether the local configuration file existence check
succeeds, and the scripted executor results. -/
structure IxiaEnv where
  hasConfigMapArg : Bool
  statOk : Bool
  execResults : List (Option String)

/-- Modelled from the spec, pinned by the test file: `IxiaTGSpec.Deploy`.
Apply the operator manifest (executor, error surfaced verbatim); resolve the
configuration payload from the supplied in-memory ConfigMap or, failing
that, from the local configuration file; when neither source is available
fail with `ixia configmap not found` without issuing the configuration-apply
call; otherwise apply the configuration object (executor, verbatim).
Returns the trace of steps issued and the error. -/
def ixiaTGDeploy (env : IxiaEnv) : List IxiaStep × Option String :=
  let s1 := takeExec env.execResults
  match s1.1 with
  | some e => ([IxiaStep.applyOperator], some e)
  | none =>
    if env.hasConfigMapArg || env.statOk then
      let s2 := takeExec s1.2
      match s2.1 with
      | some e => ([IxiaStep.applyOperator, IxiaStep.applyConfigMap], some e)
      | none => ([IxiaStep.applyOperator, IxiaStep.applyConfigMap], none)
    else
      ([IxiaStep.applyOperator], some "ixia configmap not found")

/-- The MetalLB environment in which the network-introspection client fails
(the test file's `dclient error` case): executor calls succeed and the
membership secret is present, but listing networks fails. -/
def testDclientEnv : MetalLBEnv :=
  { ipCount := 20
    execResults := [none, none, none]
    secretGetErr := none
    secretCreateErr := none
    netList := Except.error "dclient error" }

/-- The MetalLB environment of the test file's `secret create` case: the
membership secret's get fails and its create fails too. -/
def testSecretFailEnv : MetalLBEnv :=
  { ipCount := 20
    execResults := [none, none]
    secretGetErr := some "get secret error"
    secretCreateErr := some "create secret error"
    netList := Except.ok testNetworkList }

/-- `evs` resolves a watch at position `i`: the event at `i` is an
Added/Modified event satisfying the predicate and no earlier event is. -/
def firstReadyAt (pred : α → Bool) (evs : List (EventType × α)) (i : Nat) :
    Prop :=
  ∃ pre ev post, evs = pre ++ ev :: post ∧ pre.length = i ∧
    readyEvent pred ev = true ∧
    pre.all (fun e => !readyEvent pred e) = true

end KneDeploy

namespace KneDeploy

/-! ## Theorems

Helper lemmas first, then one theorem per specification claim (with its
witness or counterexample where applicable). -/

/-- Whatever happens after the secret phase, the recorded secret operations
are exactly the ones the get-or-create protocol performed. -/
theorem metalLBFinish_secretOps (ops : List SecretOp)
    (r : List (Option String)) (nl : Except String (List NetworkResource))
    (c : Nat) : (metalLBFinish ops r nl c).secretOps = ops := by
  unfold metalLBFinish
  rcases r with _ | ⟨r0, xs⟩
  · rfl
  · rcases r0 with _ | e
    · dsimp only [takeExec]
      rcases nl with e | nets
      · rfl
      · dsimp only
        rcases deriveMetalLBConfig nets c with _ | cfg <;> rfl
    · rfl

/-- When the tail of the load-balancer deploy succeeds, the network list was
available, the derivation succeeded, and the configuration object was
written with the fixed namespace, name and data key. -/
theorem metalLBFinish_ok (ops : List SecretOp) (r : List (Option String))
    (nl : Except String (List NetworkResource)) (c : Nat)
    (h : (metalLBFinish ops r nl c).err = none) :
    ∃ nets cfg, nl = Except.ok nets ∧ deriveMetalLBConfig nets c = some cfg ∧
      (metalLBFinish ops r nl c).cmWrite =
        some ⟨"metallb-system", "config", "config", cfg⟩ := by
  revert h
  unfold metalLBFinish
  rcases r with _ | ⟨r0, xs⟩
  · intro h; simp [takeExec] at h
  · rcases r0 with _ | e
    · dsimp only [takeExec]
      rcases nl with e | nets
      · intro h; simp [takeExec] at h
      · dsimp only
        rcases hd : deriveMetalLBConfig nets c with _ | cfg
        · intro h; simp [takeExec] at h
        · intro _; exact ⟨nets, cfg, rfl, hd, rfl⟩
    · intro h; simp [takeExec] at h

/-- A readiness-watch loop that returns success at index `i` found an
Added/Modified event satisfying the predicate there, with every earlier
event failing to be one. -/
theorem waitReadyGo_ok {α : Type} (pred : α → Bool)
    (evs : List (EventType × α)) :
    ∀ (n i : Nat), waitReadyGo pred n evs = Except.ok i →
      ∃ pre ev post, evs = pre ++ ev :: post ∧ n + pre.length = i ∧
        readyEvent pred ev = true ∧
        pre.all (fun e => !readyEvent pred e) = true := by
  induction evs with
  | nil =>
    intro n i h
    simp [waitReadyGo] at h
  | cons hd tl ih =>
    intro n i h
    obtain ⟨t, o⟩ := hd
    cases t with
    | error => simp [waitReadyGo] at h
    | deleted =>
      simp only [waitReadyGo] at h
      obtain ⟨pre, ev, post, he, hn, hr, ha⟩ := ih (n + 1) i h
      refine ⟨(EventType.deleted, o) :: pre, ev, post, by simp [he], ?_, hr, ?_⟩
      · simp only [List.length_cons]
        omega
      · rw [List.all_cons, ha]
        simp [readyEvent]
    | added =>
      simp only [waitReadyGo] at h
      by_cases hp : pred o
      · rw [if_pos hp] at h
        injection h with h'
        subst h'
        exact ⟨[], (EventType.added, o), tl, rfl, by simp,
          by simp [readyEvent, hp], by simp⟩
      · rw [if_neg hp] at h
        obtain ⟨pre, ev, post, he, hn, hr, ha⟩ := ih (n + 1) i h
        refine ⟨(EventType.added, o) :: pre, ev, post, by simp [he], ?_, hr, ?_⟩
        · simp only [List.length_cons]
          omega
        · rw [List.all_cons, ha]
          simp [readyEvent, hp]
    | modified =>
      simp only [waitReadyGo] at h
      by_cases hp : pred o
      · rw [if_pos hp] at h
        injection h with h'
        subst h'
        exact ⟨[], (EventType.modified, o), tl, rfl, by simp,
          by simp [readyEvent, hp], by simp⟩
      · rw [if_neg hp] at h
        obtain ⟨pre, ev, post, he, hn, hr, ha⟩ := ih (n + 1) i h
        refine ⟨(EventType.modified, o) :: pre, ev, post, by simp [he], ?_,
          hr, ?_⟩
        · simp only [List.length_cons]
          omega
        · rw [List.all_cons, ha]
          simp [readyEvent, hp]

/-- Once a step has failed, the rest of a plan issues no calls and changes
nothing. -/
theorem runPlan_frozen (plan : List (KStep × String))
    (r : List (Option String)) (t : List KStep) (m : String) :
    runPlan plan { results := r, trace := t, err := some m } =
      { results := r, trace := t, err := some m } := by
  induction plan with
  | nil => rfl
  | cons p ps ih =>
    simp only [runPlan, kstep]
    exact ih

/-- Running a plan whose first `k` scripted results succeed and whose
`k`-th fails: exactly the first `k + 1` steps are issued, the remaining
script is untouched, and the error is the failing step's wrap of the
underlying message. -/
theorem runPlan_first_failure (plan : List (KStep × String)) :
    ∀ (k : Nat) (e : String) (rest : List (Option String)) (t0 : List KStep),
      k < plan.length →
      runPlan plan { results := List.replicate k none ++ some e :: rest,
                     trace := t0, err := none } =
        { results := rest,
          trace := t0 ++ ((plan.take (k + 1)).map Prod.fst),
          err := some ((plan.getD k (KStep.createCluster, "")).2
            ++ ": " ++ e) } := by
  induction plan with
  | nil =>
    intro k e rest t0 hk
    simp at hk
  | cons p ps ih =>
    intro k e rest t0 hk
    cases k with
    | zero =>
      simp only [List.replicate, List.nil_append, runPlan, kstep]
      rw [runPlan_frozen]
      simp
    | succ k2 =>
      simp only [List.replicate_succ, List.cons_append, runPlan, kstep]
      rw [ih k2 e rest (t0 ++ [p.1]) (by simpa using hk)]
      simp [List.getD_cons_succ, List.take_succ_cons, List.append_assoc]

/-- C1: for the MetalLB spec configured with IP count 20, when the selected
network's first IPv4 IPAM subnet is `172.18.0.0/16`, the derived address
pool is exactly `172.18.0.50 - 172.18.0.70`, rendered as a YAML document
with top-level key `address-pools` containing the single pool `default` of
protocol `layer2` with the one-element addresses list holding that
`start - end` string. -/
theorem metallb_derived_pool_yaml_exact :
    deriveMetalLBConfig testNetworkList 20 =
      some ("address-pools:\n    - name: default\n      protocol: layer2\n" ++
        "      addresses:\n        - 172.18.0.50 - 172.18.0.70\n") := by
  decide

/-- C2 (counterexample): with subnet `172.18.0.0/16` (base address value
2886860800) and IP count 20, the derived pool ends at host offset 70 =
50 + 20 of the subnet base, not at offset 69 = 50 + 20 - 1 as the claimed
span `[base+50, base+50+N-1]` would require: the pool contains 21 = N + 1
addresses, not N. -/
theorem makePool_end_is_offset_fifty_plus_count :
    makePool "172.18.0.0/16" 20 =
      some { name := "default", protocol := "layer2",
             addresses := ["172.18.0.50 - 172.18.0.70"] } ∧
    ip32Repr (2886860800 + 50 + 20) = "172.18.0.70" ∧
    ip32Repr (2886860800 + 50 + 20 - 1) = "172.18.0.69" ∧
    ("172.18.0.50 - 172.18.0.70" : String) ≠
      "172.18.0.50 - " ++ ip32Repr (2886860800 + 50 + 20 - 1) := by
  decide

/-- C2 (amended): for every IPv4 subnet and configured IP count, the derived
pool spans `[base+50, base+50+count]` within the subnet — `count + 1`
addresses starting at host offset 50 of the subnet base (assuming the range
does not overflow the 32-bit address space). -/
theorem makePool_spans_offset_fifty (s : String)
    (count a b c d p ip32 base : Nat)
    (hp : parseIPv4CIDR s = some (a, b, c, d, p))
    (hip : ip32 = ((a * 256 + b) * 256 + c) * 256 + d)
    (hbase : base = ip32 - ip32 % 2 ^ (32 - p))
    (hlt : base + 50 + count < 2 ^ 32) :
    makePool s count =
      some { name := "default", protocol := "layer2",
             addresses := [ip32Repr (base + 50) ++ " - " ++
                           ip32Repr (base + 50 + count)] } ∧
    (base + 50 + count) - (base + 50) + 1 = count + 1 := by
  constructor
  · unfold makePool
    rw [hp]
    dsimp only
    rw [← hip, ← hbase,
      Nat.mod_eq_of_lt (show base + 50 < 2 ^ 32 by omega),
      Nat.mod_eq_of_lt hlt]
  · omega

/-- C2 (witness for the amended theorem): the amended span property at the
test file's subnet `172.18.0.0/16` and IP count 20. -/
theorem makePool_spans_offset_fifty_witness :
    makePool "172.18.0.0/16" 20 =
      some { name := "default", protocol := "layer2",
             addresses := [ip32Repr (2886860800 + 50) ++ " - " ++
                           ip32Repr (2886860800 + 50 + 20)] } ∧
    (2886860800 + 50 + 20) - (2886860800 + 50) + 1 = 20 + 1 :=
  makePool_spans_offset_fifty "172.18.0.0/16" 20 172 18 0 0 16 2886860800
    2886860800 (by decide) (by decide) (by decide) (by decide)

/-- C6: for every component spec, `Healthy` called with an already-canceled
context returns the cancellation error `context canceled` without any
readiness condition being observed, whatever events the watch would
otherwise deliver. -/
theorem healthy_canceled_context
    (devs devs2 devs3 : List (EventType × DeploymentObj))
    (dsevs : List (EventType × DaemonSetObj)) :
    metalLBHealthy true devs = Except.error "context canceled" ∧
    meshnetHealthy true dsevs = Except.error "context canceled" ∧
    ixiaTGHealthy true devs2 = Except.error "context canceled" ∧
    srlinuxHealthy true devs3 = Except.error "context canceled" :=
  ⟨rfl, rfl, rfl, rfl⟩

/-- C7: `KindSpec.Deploy` checks the provisioning tool's path resolution
before any other step: when the lookup fails it returns the error
`install dependency "kind" to deploy` and issues no external-process call
(the trace is empty and the executor script is untouched). -/
theorem kindDeploy_missing_tool
    (registries nodes : List String) (images : List (String × String))
    (results : List (Option String)) :
    kindDeploy false registries nodes images results =
      { results := results, trace := [],
        err := some "install dependency \"kind\" to deploy" } :=
  rfl

/-- C8: an IxiaTG spec with no in-memory ConfigMap supplied and no
discoverable local configuration file fails `Deploy` with
`ixia configmap not found` after the operator apply, and never issues the
configuration-apply call. -/
theorem ixiaTGDeploy_configmap_not_found (rest : List (Option String)) :
    ixiaTGDeploy ⟨false, false, none :: rest⟩ =
      ([IxiaStep.applyOperator], some "ixia configmap not found") ∧
    IxiaStep.applyConfigMap ∉ (ixiaTGDeploy ⟨false, false, none :: rest⟩).1 := by
  refine ⟨rfl, ?_⟩
  have h : (ixiaTGDeploy ⟨false, false, none :: rest⟩).1 =
      [IxiaStep.applyOperator] := rfl
  rw [h]
  decide

/-- C3 (counterexample): in the test file's `dclient error` configuration a
network-listing failure is returned by `Deploy`, not by `Healthy`: `Deploy`
surfaces `dclient error` (writing no configuration object), and in the
successful configuration `Deploy` itself performs the listing, selection and
derivation (it writes the configuration object) while `Healthy` only
consumes deployment watch events. -/
theorem metallb_listing_error_returned_by_deploy :
    (metalLBDeploy testDclientEnv).err = some "dclient error" ∧
    (metalLBDeploy testDclientEnv).cmWrite = none ∧
    (metalLBDeploy testMetalLBEnv).cmWrite.isSome = true ∧
    metalLBHealthy false testMetalLBEvents = Except.ok 1 :=
  ⟨rfl, rfl, rfl, rfl⟩

/-- C3 (amended): the container-network listing, network selection and
address-range derivation are performed by the load-balancer's `Deploy`: a
failure to list networks is a fatal error returned by `Deploy` (no
configuration object is written), and on a successful listing `Deploy`
itself derives and writes the configuration. -/
theorem metallb_deploy_performs_network_steps (env : MetalLBEnv) (e : String)
    (nets : List NetworkResource) (cfg : String)
    (h1 : env.execResults = [none, none, none])
    (h2 : env.secretGetErr = none) :
    (env.netList = Except.error e →
      (metalLBDeploy env).err = some e ∧ (metalLBDeploy env).cmWrite = none) ∧
    (env.netList = Except.ok nets →
      deriveMetalLBConfig nets env.ipCount = some cfg →
      (metalLBDeploy env).err = none ∧
      (metalLBDeploy env).cmWrite =
        some ⟨"metallb-system", "config", "config", cfg⟩) := by
  unfold metalLBDeploy metalLBFinish
  rw [h1, h2]
  dsimp only [takeExec, getOrCreateSecret]
  constructor
  · intro h3
    rw [h3]
    exact ⟨rfl, rfl⟩
  · intro h3 h4
    rw [h3]
    dsimp only
    rw [h4]
    exact ⟨rfl, rfl⟩

/-- C3 (witness for the amended theorem): at the test file's `dclient error`
environment, `Deploy` returns the listing failure. -/
theorem metallb_deploy_network_steps_witness :
    (metalLBDeploy testDclientEnv).err = some "dclient error" ∧
    (metalLBDeploy testDclientEnv).cmWrite = none :=
  (metallb_deploy_performs_network_steps testDclientEnv "dclient error"
    [] "" rfl rfl).1 rfl

/-- C4: a watched component's `Healthy` returns success only upon the first
watch event whose object satisfies the component's readiness predicate
(Deployment-backed: `unavailableReplicas == 0` and `readyReplicas` equal to
the declared desired count, defaulting to 1; DaemonSet-backed:
`numberUnavailable == 0` and `numberReady == desiredNumberScheduled`); every
earlier event fails the predicate, so a non-ready event never causes
`Healthy` to return. -/
theorem healthy_first_ready_event (devs : List (EventType × DeploymentObj))
    (dsevs : List (EventType × DaemonSetObj)) (i j : Nat) :
    (metalLBHealthy false devs = Except.ok i →
      firstReadyAt deploymentReady devs i) ∧
    (meshnetHealthy false dsevs = Except.ok j →
      firstReadyAt daemonSetReady dsevs j) := by
  constructor
  · intro h
    obtain ⟨pre, ev, post, he, hn, hr, ha⟩ :=
      waitReadyGo_ok deploymentReady devs 0 i h
    exact ⟨pre, ev, post, he, by omega, hr, ha⟩
  · intro h
    obtain ⟨pre, ev, post, he, hn, hr, ha⟩ :=
      waitReadyGo_ok daemonSetReady dsevs 0 j h
    exact ⟨pre, ev, post, he, by omega, hr, ha⟩

/-- C4 (witness): the test file's two-event scripts (first event not ready
with one unavailable replica, second event ready) resolve both watches at
index 1, the second event. -/
theorem healthy_first_ready_event_witness :
    firstReadyAt deploymentReady testMetalLBEvents 1 ∧
    firstReadyAt daemonSetReady testMeshnetEvents 1 :=
  ⟨(healthy_first_ready_event testMetalLBEvents testMeshnetEvents 1 1).1 rfl,
   (healthy_first_ready_event testMetalLBEvents testMeshnetEvents 1 1).2 rfl⟩

/-- C5 (counterexample): with two configured artifact-registry hosts (and
the single discovered node of the test's scripted executor), a fully
successful `KindSpec.Deploy` issues exactly 7 external calls — the access
token is fetched once and the nodes are enumerated once overall, with only
the login repeated per host — not the 11 calls that running the full
token/login/node-list/copy/restart sequence once per host would issue. -/
theorem kindDeploy_token_once :
    kindDeploy true ["us-west1-docker.pkg.dev", "us-central1-docker.pkg.dev"]
        [""] [] (List.replicate 7 none) =
      { results := [],
        trace := [KStep.createCluster, KStep.getToken, KStep.dockerLogin,
                  KStep.dockerLogin, KStep.getNodes, KStep.cpConfig,
                  KStep.restartKubelet],
        err := none } ∧
    [KStep.createCluster, KStep.getToken, KStep.dockerLogin,
     KStep.dockerLogin, KStep.getNodes, KStep.cpConfig,
     KStep.restartKubelet].count KStep.getToken = 1 ∧
    [KStep.createCluster, KStep.getToken, KStep.dockerLogin,
     KStep.dockerLogin, KStep.getNodes, KStep.cpConfig,
     KStep.restartKubelet].count KStep.getNodes = 1 := by
  decide

/-- C5 (amended): `KindSpec.Deploy` halts at the first failing
external-process step without issuing subsequent calls — aborting the
remaining registry hosts, nodes and image jobs — and the returned error is
that step's message (`failed to get access token`, `failed to login to
docker`, `failed to get nodes`, `failed to cp config to node`, `failed to
restart kubelet`, `failed to pull`, `failed to tag`, `failed to load`)
wrapping the underlying failure; the token fetch and node enumeration occur
once overall, with the login repeated per registry host and the copy and
restart per discovered node. -/
theorem kindDeploy_halts_at_first_failure (registries nodes : List String)
    (images : List (String × String)) (k : Nat) (e : String)
    (rest : List (Option String))
    (hk : k < (kindPlan registries nodes images).length) :
    kindDeploy true registries nodes images
        (List.replicate k none ++ some e :: rest) =
      { results := rest,
        trace := ((kindPlan registries nodes images).take (k + 1)).map
          Prod.fst,
        err := some (((kindPlan registries nodes images).getD k
          (KStep.createCluster, "")).2 ++ ": " ++ e) } := by
  have h := runPlan_first_failure (kindPlan registries nodes images) k e
    rest [] hk
  simpa [kindDeploy] using h

/-- C5 (witness): a failure at the third planned step (the docker login of
the single registry host) aborts the sequence there with the login error. -/
theorem kindDeploy_halts_witness :
    kindDeploy true ["us-west1-docker.pkg.dev"] ["kind-control-plane"]
        [("docker", "local")] (List.replicate 2 none ++ some "denied" :: []) =
      { results := [],
        trace := ((kindPlan ["us-west1-docker.pkg.dev"] ["kind-control-plane"]
          [("docker", "local")]).take 3).map Prod.fst,
        err := some (((kindPlan ["us-west1-docker.pkg.dev"]
          ["kind-control-plane"] [("docker", "local")]).getD 2
            (KStep.createCluster, "")).2 ++ ": " ++ "denied") } :=
  kindDeploy_halts_at_first_failure ["us-west1-docker.pkg.dev"]
    ["kind-control-plane"] [("docker", "local")] 2 "denied" [] (by decide)

/-- C9: in the load-balancer's `Deploy` the shared membership secret follows
the get-or-create protocol: the get is attempted first (a successful get
attempts no create), the create is attempted exactly when the get failed,
and when both fail the returned error carries the `secret error` wrapping of
the create failure — distinct from the bare get failure, which alone
produces no error. -/
theorem metallb_secret_get_or_create (env : MetalLBEnv)
    (rest : List (Option String)) (hx : env.execResults = none :: rest) :
    (env.secretGetErr = none →
      (metalLBDeploy env).secretOps = [SecretOp.get]) ∧
    (SecretOp.create ∈ (metalLBDeploy env).secretOps ↔
      env.secretGetErr.isSome = true) ∧
    (∀ g e, env.secretGetErr = some g → env.secretCreateErr = some e →
      (metalLBDeploy env).secretOps = [SecretOp.get, SecretOp.create] ∧
      (metalLBDeploy env).err = some ("secret error: " ++ e)) := by
  unfold metalLBDeploy
  rw [hx]
  dsimp only [takeExec]
  cases hg : env.secretGetErr with
  | none =>
    dsimp only [getOrCreateSecret]
    refine ⟨fun _ => ?_, ?_, ?_⟩
    · exact metalLBFinish_secretOps _ rest env.netList env.ipCount
    · rw [metalLBFinish_secretOps]
      simp
    · intro g e hge
      simp at hge
  | some g0 =>
    cases hc : env.secretCreateErr with
    | none =>
      dsimp only [getOrCreateSecret]
      refine ⟨fun h => ?_, ?_, ?_⟩
      · simp at h
      · rw [metalLBFinish_secretOps]
        simp
      · intro g e hg1 hce
        simp at hce
    | some e0 =>
      dsimp only [getOrCreateSecret]
      refine ⟨fun h => ?_, ?_, ?_⟩
      · simp at h
      · simp
      · intro g e hg1 hce
        injection hce with he
        subst he
        exact ⟨rfl, rfl⟩

/-- C9 (witness): in the test file's `secret create` case (get fails with
`get secret error`, create fails with `create secret error`) both
operations are attempted and `Deploy` surfaces the `secret error`
wrapping. -/
theorem metallb_secret_witness :
    (metalLBDeploy testSecretFailEnv).secretOps =
      [SecretOp.get, SecretOp.create] ∧
    (metalLBDeploy testSecretFailEnv).err =
      some ("secret error: " ++ "create secret error") :=
  (metallb_secret_get_or_create testSecretFailEnv [none] rfl).2.2
    "get secret error" "create secret error" rfl rfl

/-- C10: whenever the load-balancer's `Deploy` succeeds, the rendered
address-pool document derived from the listed networks is stored in the
configuration object named `config` of namespace `metallb-system` under the
data key `config`. -/
theorem metallb_config_object_write (env : MetalLBEnv)
    (h : (metalLBDeploy env).err = none) :
    ∃ nets cfg, env.netList = Except.ok nets ∧
      deriveMetalLBConfig nets env.ipCount = some cfg ∧
      (metalLBDeploy env).cmWrite =
        some ⟨"metallb-system", "config", "config", cfg⟩ := by
  revert h
  unfold metalLBDeploy
  rcases env.execResults with _ | ⟨r0, xs⟩
  · intro h; simp [takeExec] at h
  · rcases r0 with _ | e
    · dsimp only [takeExec]
      rcases (getOrCreateSecret env.secretGetErr env.secretCreateErr).2
        with _ | se
      · exact fun h => metalLBFinish_ok _ xs env.netList env.ipCount h
      · intro h; simp [takeExec] at h
    · intro h; simp [takeExec] at h

/-- C10 (witness): the successful test environment stores the derived
document in `metallb-system/config` under key `config`. -/
theorem metallb_config_object_write_witness :
    ∃ nets cfg, testMetalLBEnv.netList = Except.ok nets ∧
      deriveMetalLBConfig nets testMetalLBEnv.ipCount = some cfg ∧
      (metalLBDeploy testMetalLBEnv).cmWrite =
        some ⟨"metallb-system", "config", "config", cfg⟩ :=
  metallb_config_object_write testMetalLBEnv rfl

end KneDeploy
